import Mathlib

/-!
Shallow embedding of `src/FineTuneLLms/FineTuneLLM-StrictBot/generate_data.py`,
the batch dataset-generation pipeline of the StrictBot repository.

The remote API call together with `json.loads` is modelled as an oracle
`client : Nat → AttemptOutcome` giving, for each attempt index, either a raised
exception (`raise`, covering transport errors and parse failures — both land in
the same `except` clause at line 106) or the successfully parsed JSON value
(`parsed j`).  Python's `None` and JSON `null` are one value (`json.loads "null"`
is Python `None`), so `Json.null` plays both roles, exactly as in the source.
Control flow of `generate_batch` (lines 81-113) and of `main` (lines 115-192)
is translated statement by statement.  `time.sleep` calls are recorded as data
(sleep durations) instead of being performed; file writes are recorded as
`FileWrite` events instead of touching a disk.
-/

namespace StrictBot

/-- A parsed JSON value / Python value.  `null` is Python's `None`. -/
inductive Json where
  | null : Json
  | bool : Bool → Json
  | num : Int → Json
  | str : String → Json
  | arr : List Json → Json
  | obj : List (String × Json) → Json

/-- Python truthiness, as used by `if batch and ...` at line 142. -/
def pyTruthy : Json → Bool
  | .null => false
  | .bool b => b
  | .num n => n != 0
  | .str s => !s.isEmpty
  | .arr xs => !xs.isEmpty
  | .obj kvs => !kvs.isEmpty

/-- One attempt of the client (API call at lines 89-104): either an exception is
raised somewhere in the `try` block (transport error, timeout, or `json.loads`
failing on the cleaned text), or `json.loads` returns a parsed value. -/
inductive AttemptOutcome where
  | raise : AttemptOutcome
  | parsed : Json → AttemptOutcome

/-- What one call of `generate_batch` does: the value it returns (`Json.null`
is Python `None`), how many client calls it made, and the `time.sleep`
durations it performed (source line 110 sleeps 5 seconds). -/
structure GBResult where
  result : Json
  calls : Nat
  sleeps : List Nat

/-- The retry loop of `generate_batch` (lines 85-113), starting at attempt
index `i` with `remaining` loop iterations left (`i + remaining = mr` at every
call).  On a parsed response the parsed value is returned at once (line 104);
on an exception the loop sleeps 5 seconds unless this was the last allowed
attempt (`attempt < max_retries - 1`, line 108, i.e. `i + 1 < mr`) and goes
on; falling off the loop returns `None` (line 113). -/
def gbAux (client : Nat → AttemptOutcome) (mr : Nat) : Nat → Nat → GBResult
  | 0, _ => ⟨Json.null, 0, []⟩
  | remaining + 1, i =>
    match client i with
    | .parsed j => ⟨j, 1, []⟩
    | .raise =>
      let rest := gbAux client mr remaining (i + 1)
      if i + 1 < mr then
        ⟨rest.result, rest.calls + 1, 5 :: rest.sleeps⟩
      else
        ⟨rest.result, rest.calls + 1, rest.sleeps⟩

/-- `generate_batch(focus_category, max_retries)` of lines 81-113, abstracted
over the client oracle.  The focus category only enters the outbound prompt
text, which the oracle absorbs. -/
def generate_batch (client : Nat → AttemptOutcome) (mr : Nat) : GBResult :=
  gbAux client mr mr 0

/-- Default of the `max_retries` parameter at line 81. -/
def DEFAULT_MAX_RETRIES : Nat := 3

/-- Configured target record count (line 9). -/
def NUM_RECORDS_TO_GENERATE : Nat := 3000

/-- Configured batch size (line 10). -/
def BATCH_SIZE : Nat := 10

/-- Configured requests-per-minute limit (line 11). -/
def RPM_LIMIT : ℚ := 5

/-- Minimum acceptable final record count (line 160). -/
def MIN_RECORDS : Nat := 3000

/-- `delay_between_requests = 60.0 / RPM_LIMIT` (line 119), modelled over ℚ
(the concrete value 60.0/5 = 12.0 is exact in either arithmetic). -/
def delay_between_requests (rpm : ℚ) : ℚ := 60 / rpm

/-- Modelled from the spec (§3, §4.1, §8): a structurally valid Record is a
JSON object supplying the four fields `category`, `prompt`, `chosen`,
`rejected`, each a non-empty text.  This follows the spec's words, to be
compared with what the code actually checks. -/
def specValidRecord (j : Json) : Bool :=
  match j with
  | .obj kvs =>
    ["category", "prompt", "chosen", "rejected"].all fun k =>
      match List.lookup k kvs with
      | some (.str s) => !s.isEmpty
      | _ => false
  | _ => false

/-- Modelled from the spec (§4.1, §8): a valid Batch is a JSON array of
structurally valid Records. -/
def specValidBatch (j : Json) : Bool :=
  match j with
  | .arr xs => xs.all specValidRecord
  | _ => false

/-- State of the accumulator loop of `main` (lines 117, 133-134). -/
structure LoopState where
  all_records : List Json
  successful_batches : Nat
  failed_batches : Nat

/-- Initial loop state (lines 117, 133-134). -/
def initState : LoopState := ⟨[], 0, 0⟩

/-- The acceptance test `batch and isinstance(batch, list) and len(batch) > 0`
of line 142: Python `and` short-circuits, so truthiness is checked first, then
the list check, then the length. -/
def batchAccepted (b : Json) : Bool :=
  pyTruthy b &&
    (match b with
     | .arr xs => decide (0 < xs.length)
     | _ => false)

/-- The list held by a Json value; only used on accepted batches. -/
def asList : Json → List Json
  | .arr xs => xs
  | _ => []

/-- One iteration body of the accumulator loop (lines 140-147): on an accepted
batch, `all_records.extend(batch)` and `successful_batches += 1`; otherwise
`failed_batches += 1`. -/
def loopStep (s : LoopState) (batch : Json) : LoopState :=
  if batchAccepted batch then
    { s with
      all_records := s.all_records ++ asList batch
      successful_batches := s.successful_batches + 1 }
  else
    { s with failed_batches := s.failed_batches + 1 }

/-- The accumulator loop (lines 136-150), iterating the body `n` times from
iteration index `i`, threading the state and recording the unconditional
`time.sleep(delay_between_requests)` of line 150 once per iteration.
`batchOf i` is the value `generate_batch(focus)` returned at iteration `i`
(the oracle composes the retry controller with the per-iteration random focus
choice, neither of which the loop body inspects). -/
def runIters (batchOf : Nat → Json) (delay : ℚ) : LoopState → Nat → Nat → LoopState × List ℚ
  | s, _, 0 => (s, [])
  | s, i, n + 1 =>
    let s' := loopStep s (batchOf i)
    let r := runIters batchOf delay s' (i + 1) n
    (r.1, delay :: r.2)

/-- The generation phase of `main` (lines 115-150): `total_iterations =
NUM_RECORDS_TO_GENERATE // BATCH_SIZE` (line 118, Python floor division on
naturals = `Nat.div`), `delay_between_requests = 60.0 / RPM_LIMIT` (line 119),
then the accumulator loop. -/
def main_run (batchOf : Nat → Json) (target batchSize : Nat) (rpm : ℚ) :
    LoopState × List ℚ :=
  runIters batchOf (delay_between_requests rpm) initState 0 (target / batchSize)

/-- State after the first `k` iterations of a run (the loop body at iteration
`i` depends only on `batchOf i`, so the first `k` iterations of any longer run
compute exactly this state). -/
def stateAfter (batchOf : Nat → Json) (delay : ℚ) (k : Nat) : LoopState :=
  (runIters batchOf delay initState 0 k).1

/-- A completed file write of the save phase (lines 176-182): `reward_model_dataset.json`
holding the full record list, or `sft_dataset.json` holding the projection. -/
inductive FileWrite where
  | rm : List Json → FileWrite
  | sft : List Json → FileWrite

/-- Outcome of the tail of `main` (lines 159-188): the file writes that
happened, in order, and the uncaught exception if one escaped. -/
structure SaveResult where
  writes : List FileWrite
  uncaught : Option String

/-- Python `str.strip` whitespace: space, tab, newline, carriage return,
vertical tab, form feed. -/
def pyWhitespace (c : Char) : Bool :=
  c == ' ' || c == '\t' || c == '\n' || c == '\r' ||
    c == Char.ofNat 11 || c == Char.ofNat 12

/-- Python `str.strip`: drop whitespace from both ends. -/
def pyStrip (s : String) : String :=
  ⟨((s.data.dropWhile pyWhitespace).reverse.dropWhile pyWhitespace).reverse⟩

/-- Python `str.lower`, on the ASCII answers relevant here. -/
def pyLower (s : String) : String :=
  ⟨s.data.map Char.toLower⟩

/-- `response.lower().strip()` applied to the user's confirmation line
(line 168). -/
def normalizeInput (s : String) : String := pyStrip (pyLower s)

/-- One element of the SFT list comprehension at line 180:
`{"prompt": item["prompt"], "response": item["chosen"]}`.  Python raises
`KeyError` when a dict lacks the key and `TypeError` when `item` is not a
mapping indexable by a string. -/
def projectItem : Json → Except String Json
  | .obj kvs =>
    match List.lookup "prompt" kvs, List.lookup "chosen" kvs with
    | some p, some c => .ok (Json.obj [("prompt", p), ("response", c)])
    | _, _ => .error "KeyError"
  | _ => .error "TypeError"

/-- The SFT list comprehension of line 180: left to right, stopping at the
first raising element. -/
def sft_project : List Json → Except String (List Json)
  | [] => .ok []
  | r :: rest =>
    match projectItem r with
    | .error e => .error e
    | .ok x =>
      match sft_project rest with
      | .error e => .error e
      | .ok xs => .ok (x :: xs)

/-- The expected SFT element for a record that has both keys: the `"prompt"`
and `"chosen"` fields looked up in the object. -/
def jGet (r : Json) (k : String) : Json :=
  match r with
  | .obj kvs => (List.lookup k kvs).getD Json.null
  | _ => Json.null

/-- The SFT pair `{prompt: r.prompt, response: r.chosen}` built from total
field access; agrees with `projectItem` on objects holding both keys. -/
def mkSftPair (r : Json) : Json :=
  Json.obj [("prompt", jGet r "prompt"), ("response", jGet r "chosen")]

/-- The tail of `main` (lines 159-182): if fewer than `MIN_RECORDS` records
were accumulated, ask for confirmation and return without writing anything
unless the normalized answer is exactly `"y"` (lines 161-171); otherwise dump
the RM file (lines 176-177), then build the SFT projection (line 180) — whose
failure leaves the RM file already written and the exception uncaught — and
dump the SFT file (lines 181-182). -/
def finalize (all_records : List Json) (userInput : String) : SaveResult :=
  let proceed : SaveResult :=
    match sft_project all_records with
    | .ok sft => ⟨[.rm all_records, .sft sft], none⟩
    | .error e => ⟨[.rm all_records], some e⟩
  if all_records.length < MIN_RECORDS then
    if normalizeInput userInput = "y" then proceed else ⟨[], none⟩
  else proceed

/-- The claim that every non-None value `generate_batch` returns is a valid
Batch (array of four-field Records), invalid shapes being rejected instead of
returned. -/
def claimC1Prop : Prop :=
  ∀ (client : Nat → AttemptOutcome) (mr : Nat),
    (generate_batch client mr).result ≠ Json.null →
    specValidBatch (generate_batch client mr).result = true

/-- The claim that whenever the retry controller hands the loop body a list —
an empty one included — its elements are appended and `successful_batches`
is incremented. -/
def claimC2Prop : Prop :=
  ∀ (s : LoopState) (xs : List Json),
    loopStep s (Json.arr xs) =
      ⟨s.all_records ++ xs, s.successful_batches + 1, s.failed_batches⟩

/-- Whether an attempt outcome is a successful parse of a non-null value. -/
def nonNullSuccess : AttemptOutcome → Bool
  | .raise => false
  | .parsed .null => false
  | .parsed _ => true

/-- The claim that `generate_batch` returns the first successful *non-null*
batch: if every attempt before `k` is not a non-null success and attempt `k`
parses to a non-null `j`, then `j` is returned. -/
def claimC8Prop : Prop :=
  ∀ (client : Nat → AttemptOutcome) (mr k : Nat) (j : Json),
    k < mr →
    (∀ t, t < k → nonNullSuccess (client t) = false) →
    client k = .parsed j →
    j ≠ Json.null →
    (generate_batch client mr).result = j

/-! ### Helper lemmas about the retry loop -/

theorem gbAux_all_raise (client : Nat → AttemptOutcome)
    (h : ∀ t, client t = AttemptOutcome.raise) :
    ∀ (remaining i mr : Nat), i + remaining = mr →
      gbAux client mr remaining i =
        ⟨Json.null, remaining, List.replicate (remaining - 1) 5⟩ := by
  intro remaining
  induction remaining with
  | zero => intro i mr _; rfl
  | succ r ih =>
    intro i mr hsum
    have hrest := ih (i + 1) mr (by omega)
    cases r with
    | zero =>
      have hcond : ¬ i + 1 < mr := by omega
      rw [gbAux, h i]
      simp [hrest, hcond]
    | succ r' =>
      have hcond : i + 1 < mr := by omega
      rw [gbAux, h i]
      simp [hrest, hcond, List.replicate_succ]

theorem gbAux_first_success (client : Nat → AttemptOutcome) (j : Json) :
    ∀ (k remaining i mr : Nat), k < remaining → i + remaining = mr →
      (∀ t, t < k → client (i + t) = AttemptOutcome.raise) →
      client (i + k) = AttemptOutcome.parsed j →
      gbAux client mr remaining i = ⟨j, k + 1, List.replicate k 5⟩ := by
  intro k
  induction k with
  | zero =>
    intro remaining i mr hk _ _ hsucc
    cases remaining with
    | zero => omega
    | succ r =>
      rw [Nat.add_zero] at hsucc
      rw [gbAux, hsucc]
      simp
  | succ k' ih =>
    intro remaining i mr hk hsum hfails hsucc
    cases remaining with
    | zero => omega
    | succ r =>
      have h0 : client i = AttemptOutcome.raise := by
        have := hfails 0 (by omega)
        rwa [Nat.add_zero] at this
      have hrest := ih r (i + 1) mr (by omega) (by omega)
        (fun t ht => by
          have e : i + 1 + t = i + (t + 1) := by omega
          rw [e]
          exact hfails (t + 1) (by omega))
        (by
          have e : i + 1 + k' = i + (k' + 1) := by omega
          rw [e]
          exact hsucc)
      have hcond : i + 1 < mr := by omega
      rw [gbAux, h0]
      simp [hrest, hcond, List.replicate_succ]

/-! ### Helper lemmas about the accumulator loop -/

theorem batchAccepted_arr {xs : List Json} (h : xs ≠ []) :
    batchAccepted (Json.arr xs) = true := by
  cases xs with
  | nil => exact absurd rfl h
  | cons a l => simp [batchAccepted, pyTruthy]

theorem loopStep_of_accepted {b : Json} (h : batchAccepted b = true) (s : LoopState) :
    loopStep s b =
      ⟨s.all_records ++ asList b, s.successful_batches + 1, s.failed_batches⟩ := by
  simp [loopStep, h]

theorem loopStep_of_rejected {b : Json} (h : batchAccepted b = false) (s : LoopState) :
    loopStep s b =
      ⟨s.all_records, s.successful_batches, s.failed_batches + 1⟩ := by
  simp [loopStep, h]

theorem loopStep_counter_sum (s : LoopState) (b : Json) :
    (loopStep s b).successful_batches + (loopStep s b).failed_batches
      = s.successful_batches + s.failed_batches + 1 := by
  cases hb : batchAccepted b <;> simp [loopStep, hb] <;> omega

theorem loopStep_mono (s : LoopState) (b : Json) :
    s.all_records.length ≤ (loopStep s b).all_records.length ∧
    s.successful_batches ≤ (loopStep s b).successful_batches ∧
    s.failed_batches ≤ (loopStep s b).failed_batches := by
  cases hb : batchAccepted b <;> simp [loopStep, hb]

theorem runIters_trace (batchOf : Nat → Json) (delay : ℚ) :
    ∀ (n : Nat) (s : LoopState) (i : Nat),
      (runIters batchOf delay s i n).2 = List.replicate n delay := by
  intro n
  induction n with
  | zero => intro s i; rfl
  | succ m ih => intro s i; simp [runIters, ih, List.replicate_succ]

theorem runIters_counter_sum (batchOf : Nat → Json) (delay : ℚ) :
    ∀ (n : Nat) (s : LoopState) (i : Nat),
      (runIters batchOf delay s i n).1.successful_batches
        + (runIters batchOf delay s i n).1.failed_batches
        = s.successful_batches + s.failed_batches + n := by
  intro n
  induction n with
  | zero => intro s i; rfl
  | succ m ih =>
    intro s i
    have h1 := ih (loopStep s (batchOf i)) (i + 1)
    have h2 := loopStep_counter_sum s (batchOf i)
    simp only [runIters]
    omega

theorem runIters_mono (batchOf : Nat → Json) (delay : ℚ) :
    ∀ (n : Nat) (s : LoopState) (i : Nat),
      s.all_records.length ≤ (runIters batchOf delay s i n).1.all_records.length ∧
      s.successful_batches ≤ (runIters batchOf delay s i n).1.successful_batches ∧
      s.failed_batches ≤ (runIters batchOf delay s i n).1.failed_batches := by
  intro n
  induction n with
  | zero => intro s i; exact ⟨le_refl _, le_refl _, le_refl _⟩
  | succ m ih =>
    intro s i
    have h1 := ih (loopStep s (batchOf i)) (i + 1)
    have h2 := loopStep_mono s (batchOf i)
    simp only [runIters]
    exact ⟨le_trans h2.1 h1.1, le_trans h2.2.1 h1.2.1, le_trans h2.2.2 h1.2.2⟩

theorem runIters_state_add (batchOf : Nat → Json) (delay : ℚ) :
    ∀ (a b : Nat) (s : LoopState) (i : Nat),
      (runIters batchOf delay s i (a + b)).1
        = (runIters batchOf delay (runIters batchOf delay s i a).1 (i + a) b).1 := by
  intro a
  induction a with
  | zero => intro b s i; simp [runIters]
  | succ a' ih =>
    intro b s i
    have e : a' + 1 + b = (a' + b) + 1 := by omega
    rw [e]
    simp only [runIters]
    rw [ih b (loopStep s (batchOf i)) (i + 1)]
    have e2 : i + 1 + a' = i + (a' + 1) := by omega
    rw [e2]

theorem runIters_records_of_rejected (batchOf : Nat → Json) (delay : ℚ)
    (h : ∀ i, batchAccepted (batchOf i) = false) :
    ∀ (n : Nat) (s : LoopState) (i : Nat),
      (runIters batchOf delay s i n).1.all_records = s.all_records := by
  intro n
  induction n with
  | zero => intro s i; rfl
  | succ m ih =>
    intro s i
    simp only [runIters]
    rw [ih (loopStep s (batchOf i)) (i + 1), loopStep_of_rejected (h i)]

/-! ### Helper lemmas about the projection -/

theorem lookup_field_str {kvs : List (String × Json)} {k : String}
    (h : (match List.lookup k kvs with
          | some (Json.str s) => !s.isEmpty
          | _ => false) = true) :
    ∃ s, List.lookup k kvs = some (Json.str s) := by
  rcases hl : List.lookup k kvs with _ | v
  · rw [hl] at h
    exact Bool.noConfusion h
  · rcases v with _ | b | n | s | xs | kvs2
    · rw [hl] at h; exact Bool.noConfusion h
    · rw [hl] at h; exact Bool.noConfusion h
    · rw [hl] at h; exact Bool.noConfusion h
    · exact ⟨s, rfl⟩
    · rw [hl] at h; exact Bool.noConfusion h
    · rw [hl] at h; exact Bool.noConfusion h

theorem projectItem_of_valid {r : Json} (h : specValidRecord r = true) :
    projectItem r = Except.ok (mkSftPair r) := by
  cases r with
  | null => exact Bool.noConfusion h
  | bool b => exact Bool.noConfusion h
  | num n => exact Bool.noConfusion h
  | str s => exact Bool.noConfusion h
  | arr xs => exact Bool.noConfusion h
  | obj kvs =>
    simp only [specValidRecord, List.all_cons, List.all_nil, Bool.and_true,
      Bool.and_eq_true] at h
    obtain ⟨-, hp, hc, -⟩ := h
    obtain ⟨sp, hsp⟩ := lookup_field_str hp
    obtain ⟨sc, hsc⟩ := lookup_field_str hc
    simp [projectItem, mkSftPair, jGet, hsp, hsc]

theorem sft_project_of_valid :
    ∀ (records : List Json), (∀ r ∈ records, specValidRecord r = true) →
      sft_project records = Except.ok (records.map mkSftPair) := by
  intro records
  induction records with
  | nil => intro _; rfl
  | cons r rest ih =>
    intro h
    have hr := projectItem_of_valid (h r (by simp))
    have hrest := ih (fun x hx => h x (by simp [hx]))
    simp [sft_project, hr, hrest]

/-! ### The claims -/

/-- C1, counterexample: the claim that every non-None value returned by
`generate_batch` is a valid Batch (a JSON array of objects with the four
non-empty Record fields) is false — a response parsing to the non-array `42`
is returned as a success instead of being rejected as `InvalidFormat`. -/
theorem c1_counterexample : ¬ claimC1Prop := by
  intro h
  have hres : (generate_batch (fun _ => AttemptOutcome.parsed (Json.num 42)) 3).result
      = Json.num 42 := rfl
  have hne : (generate_batch (fun _ => AttemptOutcome.parsed (Json.num 42)) 3).result
      ≠ Json.null := by
    rw [hres]
    intro hx
    exact Json.noConfusion hx
  have hval := h (fun _ => AttemptOutcome.parsed (Json.num 42)) 3 hne
  rw [hres] at hval
  have hf : specValidBatch (Json.num 42) = false := rfl
  rw [hval] at hf
  exact Bool.noConfusion hf

/-- C1, amended: the client rejects (as the None result, after retrying) any
response whose parse fails, but a successfully parsed value is returned as the
batch with no structural validation at all — whether or not it is an array of
well-formed Records. -/
theorem c1_amended_no_validation :
    (∀ (client : Nat → AttemptOutcome) (mr : Nat),
      (∀ t, client t = AttemptOutcome.raise) →
      (generate_batch client mr).result = Json.null)
    ∧ (∀ (client : Nat → AttemptOutcome) (mr : Nat) (j : Json),
      0 < mr → client 0 = AttemptOutcome.parsed j →
      (generate_batch client mr).result = j) := by
  constructor
  · intro client mr h
    show (gbAux client mr mr 0).result = Json.null
    rw [gbAux_all_raise client h mr 0 mr (by omega)]
  · intro client mr j hmr h0
    show (gbAux client mr mr 0).result = j
    rw [gbAux_first_success client j 0 mr 0 mr hmr (by omega)
      (fun t ht => absurd ht (Nat.not_lt_zero t)) (by rwa [Nat.add_zero])]

/-- C1, witness for the amended theorem: a client that always raises yields
None; a client whose first attempt parses to the invalid non-array `7` gets
`7` returned. -/
theorem c1_amended_no_validation_witness :
    (generate_batch (fun _ => AttemptOutcome.raise) 3).result = Json.null
    ∧ (generate_batch (fun _ => AttemptOutcome.parsed (Json.num 7)) 3).result
        = Json.num 7 :=
  ⟨c1_amended_no_validation.1 (fun _ => AttemptOutcome.raise) 3 (fun _ => rfl),
   c1_amended_no_validation.2 (fun _ => AttemptOutcome.parsed (Json.num 7)) 3
     (Json.num 7) (by omega) rfl⟩

/-- C2, counterexample: the claim that any list handed back by the retry
controller — an empty one included — is appended and counted successful is
false: on the empty list the loop body increments `failed_batches` instead
(line 142 requires a non-empty list). -/
theorem c2_counterexample : ¬ claimC2Prop := by
  intro h
  have h0 := h initState []
  rw [show loopStep initState (Json.arr []) = ⟨[], 0, 1⟩ from rfl] at h0
  simp [initState] at h0

/-- C2, amended: if the retry controller hands back a non-empty list, all of
its records are appended and `successful_batches` is incremented; if it hands
back None, an empty list, or a non-list value (all rejected by the test at
line 142), `failed_batches` is incremented; each iteration increments exactly
one of the two counters, by one. -/
theorem c2_amended_loop_counters :
    ∀ (s : LoopState) (b : Json),
      (∀ xs, b = Json.arr xs → xs ≠ [] →
        loopStep s b =
          ⟨s.all_records ++ xs, s.successful_batches + 1, s.failed_batches⟩)
      ∧ (batchAccepted b = false →
        loopStep s b =
          ⟨s.all_records, s.successful_batches, s.failed_batches + 1⟩)
      ∧ batchAccepted (Json.arr []) = false
      ∧ batchAccepted Json.null = false
      ∧ (loopStep s b).successful_batches + (loopStep s b).failed_batches
          = s.successful_batches + s.failed_batches + 1 := by
  intro s b
  refine ⟨?_, fun hb => loopStep_of_rejected hb s, rfl, rfl, loopStep_counter_sum s b⟩
  intro xs hbx hne
  subst hbx
  rw [loopStep_of_accepted (batchAccepted_arr hne)]
  rfl

/-- C2, witness for the amended theorem: a singleton batch is appended and
counted successful; a None batch is counted failed; each changes the counter
sum by one. -/
theorem c2_amended_loop_counters_witness :
    loopStep initState (Json.arr [Json.num 1]) = ⟨[Json.num 1], 1, 0⟩
    ∧ loopStep initState Json.null = ⟨[], 0, 1⟩
    ∧ (loopStep initState (Json.arr [Json.num 1])).successful_batches
        + (loopStep initState (Json.arr [Json.num 1])).failed_batches = 1 :=
  ⟨(c2_amended_loop_counters initState (Json.arr [Json.num 1])).1
      [Json.num 1] rfl (by simp),
   (c2_amended_loop_counters initState Json.null).2.1 rfl,
   (c2_amended_loop_counters initState (Json.arr [Json.num 1])).2.2.2.2⟩

/-- C3: if the final corpus is below `MIN_RECORDS` and the normalized
confirmation answer is anything other than `"y"` (declined or absent), the
run returns before the save phase: no file write occurs and no exception
escapes — neither the RM nor the SFT output artifact is produced. -/
theorem c3_shortfall_abort (records : List Json) (input : String)
    (hlen : records.length < MIN_RECORDS)
    (hconf : normalizeInput input ≠ "y") :
    finalize records input = ⟨[], none⟩ := by
  simp [finalize, hlen, hconf]

/-- C3, witness: an empty corpus with an empty (absent) confirmation answer
produces no file write. -/
theorem c3_shortfall_abort_witness :
    ([] : List Json).length < MIN_RECORDS
    ∧ normalizeInput "" ≠ "y"
    ∧ finalize [] "" = ⟨[], none⟩ :=
  ⟨by norm_num [MIN_RECORDS], by decide,
   c3_shortfall_abort [] "" (by norm_num [MIN_RECORDS]) (by decide)⟩

/-- C4: there is a batch the accumulator admits (any non-empty parsed JSON
list, here `[1]`) whose records make the save phase write the RM file and then
fail inside the SFT projection (the element is not a mapping), leaving the RM
file written and the SFT file absent — a partial write at the save boundary. -/
theorem c4_partial_write_at_save :
    ∃ (b : Json) (input : String),
      batchAccepted b = true
      ∧ (finalize (loopStep initState b).all_records input).writes
          = [FileWrite.rm (loopStep initState b).all_records]
      ∧ (finalize (loopStep initState b).all_records input).uncaught
          = some "TypeError" :=
  ⟨Json.arr [Json.num 1], "y", rfl, rfl, rfl⟩

/-- C5: a client stub failing the first `k < maxRetries` attempts and then
succeeding makes `generate_batch` return the parsed batch after exactly `k+1`
client calls and `k` five-second waits (one after each failure, none being the
last allowed attempt); a stub that always fails yields None after exactly
`maxRetries` calls with a wait after each failure but the last; the source
default for `maxRetries` is 3. -/
theorem c5_retry_controller :
    (∀ (client : Nat → AttemptOutcome) (mr k : Nat) (j : Json),
      k < mr →
      (∀ t, t < k → client t = AttemptOutcome.raise) →
      client k = AttemptOutcome.parsed j →
      generate_batch client mr = ⟨j, k + 1, List.replicate k 5⟩)
    ∧ (∀ (client : Nat → AttemptOutcome) (mr : Nat),
      (∀ t, client t = AttemptOutcome.raise) →
      generate_batch client mr = ⟨Json.null, mr, List.replicate (mr - 1) 5⟩)
    ∧ DEFAULT_MAX_RETRIES = 3 := by
  refine ⟨?_, ?_, rfl⟩
  · intro client mr k j hk hf hs
    show gbAux client mr mr 0 = _
    exact gbAux_first_success client j k mr 0 mr hk (by omega)
      (fun t ht => by rw [Nat.zero_add]; exact hf t ht) (by rwa [Nat.zero_add])
  · intro client mr h
    show gbAux client mr mr 0 = _
    exact gbAux_all_raise client h mr 0 mr (by omega)

/-- C5, witness: failing twice then succeeding at the default 3 retries gives
the batch in 3 calls with two waits; always failing gives None in 3 calls with
two waits. -/
theorem c5_retry_controller_witness :
    generate_batch
        (fun t => if t < 2 then AttemptOutcome.raise
                  else AttemptOutcome.parsed (Json.arr [])) 3
      = ⟨Json.arr [], 2 + 1, List.replicate 2 5⟩
    ∧ generate_batch (fun _ => AttemptOutcome.raise) DEFAULT_MAX_RETRIES
      = ⟨Json.null, DEFAULT_MAX_RETRIES, List.replicate (DEFAULT_MAX_RETRIES - 1) 5⟩ :=
  ⟨c5_retry_controller.1
      (fun t => if t < 2 then AttemptOutcome.raise
                else AttemptOutcome.parsed (Json.arr [])) 3 2 (Json.arr [])
      (by omega) (fun t ht => by simp [ht]) (by simp),
   c5_retry_controller.2.1 (fun _ => AttemptOutcome.raise) DEFAULT_MAX_RETRIES
      (fun _ => rfl)⟩

/-- C6: for every target and positive batch size, the accumulator performs
exactly `target / batchSize` (floor) iterations — one rate-limit sleep per
iteration and a counter sum equal to the iteration count; with the source
configuration 3000/10 this is 300; and the realized corpus can legitimately
fall short of the target (e.g. when every batch fails). -/
theorem c6_iteration_count :
    (∀ (batchOf : Nat → Json) (target bs : Nat) (rpm : ℚ), 0 < bs →
      (main_run batchOf target bs rpm).2.length = target / bs
      ∧ (main_run batchOf target bs rpm).1.successful_batches
          + (main_run batchOf target bs rpm).1.failed_batches = target / bs)
    ∧ NUM_RECORDS_TO_GENERATE / BATCH_SIZE = 300
    ∧ (∃ batchOf : Nat → Json,
        (main_run batchOf NUM_RECORDS_TO_GENERATE BATCH_SIZE RPM_LIMIT).1.all_records.length
          < NUM_RECORDS_TO_GENERATE) := by
  refine ⟨?_, rfl, ⟨fun _ => Json.null, ?_⟩⟩
  · intro batchOf target bs rpm _
    constructor
    · rw [main_run, runIters_trace]
      exact List.length_replicate _ _
    · have := runIters_counter_sum batchOf (delay_between_requests rpm)
        (target / bs) initState 0
      simpa [main_run, initState] using this
  · rw [main_run, runIters_records_of_rejected (fun _ => Json.null)
      (delay_between_requests RPM_LIMIT) (fun i => rfl)]
    norm_num [initState, NUM_RECORDS_TO_GENERATE]

/-- C6, witness: at the source configuration the run performs 300 iterations
(300 sleeps, counter sum 300). -/
theorem c6_iteration_count_witness :
    (main_run (fun _ => Json.arr [Json.num 1]) 3000 10 5).2.length = 300
    ∧ (main_run (fun _ => Json.arr [Json.num 1]) 3000 10 5).1.successful_batches
        + (main_run (fun _ => Json.arr [Json.num 1]) 3000 10 5).1.failed_batches
        = 300 :=
  c6_iteration_count.1 (fun _ => Json.arr [Json.num 1]) 3000 10 5 (by omega)

/-- C7: on a corpus all of whose elements are well-formed Records the save
phase projects an SFT view with exactly one element per record, where element
`k` is `{prompt: records[k].prompt, response: records[k].chosen}` (same order
and index correspondence), and writes the RM file holding the corpus unchanged
followed by the SFT file holding that view. -/
theorem c7_projection (records : List Json)
    (hval : ∀ r ∈ records, specValidRecord r = true) :
    ∃ sft, sft_project records = Except.ok sft
      ∧ sft.length = records.length
      ∧ (∀ k : Nat, sft[k]? = records[k]?.map mkSftPair)
      ∧ (∀ input, normalizeInput input = "y" →
          (finalize records input).writes
            = [FileWrite.rm records, FileWrite.sft sft]) := by
  refine ⟨records.map mkSftPair, sft_project_of_valid records hval,
    List.length_map _ _, fun k => List.getElem?_map _ _ _, ?_⟩
  intro input hconf
  by_cases hlen : records.length < MIN_RECORDS
  · simp [finalize, hlen, hconf, sft_project_of_valid records hval]
  · simp [finalize, hlen, sft_project_of_valid records hval]

/-- C7, witness: a singleton corpus holding one well-formed Record projects to
the singleton SFT view pairing its prompt with its chosen response. -/
theorem c7_projection_witness :
    ∃ sft,
      sft_project [Json.obj [("category", Json.str "Factual Error"),
        ("prompt", Json.str "p"), ("chosen", Json.str "c"),
        ("rejected", Json.str "r")]] = Except.ok sft
      ∧ sft.length = 1
      ∧ (∀ k : Nat, sft[k]?
          = [Json.obj [("category", Json.str "Factual Error"),
              ("prompt", Json.str "p"), ("chosen", Json.str "c"),
              ("rejected", Json.str "r")]][k]?.map mkSftPair)
      ∧ (∀ input, normalizeInput input = "y" →
          (finalize [Json.obj [("category", Json.str "Factual Error"),
              ("prompt", Json.str "p"), ("chosen", Json.str "c"),
              ("rejected", Json.str "r")]] input).writes
            = [FileWrite.rm [Json.obj [("category", Json.str "Factual Error"),
                ("prompt", Json.str "p"), ("chosen", Json.str "c"),
                ("rejected", Json.str "r")]], FileWrite.sft sft]) := by
  have hlen : ([Json.obj [("category", Json.str "Factual Error"),
      ("prompt", Json.str "p"), ("chosen", Json.str "c"),
      ("rejected", Json.str "r")]].length = 1) := rfl
  have h := c7_projection [Json.obj [("category", Json.str "Factual Error"),
      ("prompt", Json.str "p"), ("chosen", Json.str "c"),
      ("rejected", Json.str "r")]]
    (by
      intro r hr
      rw [List.mem_singleton] at hr
      subst hr
      rfl)
  obtain ⟨sft, h1, h2, h3, h4⟩ := h
  exact ⟨sft, h1, by rw [h2]; rfl, h3, h4⟩

/-- C8, counterexample: the claim that the retry controller returns the first
successful non-null batch is false — when the first attempt parses to `null`
the controller returns it at once (as None, indistinguishable from failure),
without trying further attempts that would parse to a non-null batch. -/
theorem c8_counterexample : ¬ claimC8Prop := by
  intro h
  have hres : (generate_batch
      (fun i => if i = 0 then AttemptOutcome.parsed Json.null
                else AttemptOutcome.parsed (Json.arr [])) 3).result
      = Json.null := rfl
  have := h (fun i => if i = 0 then AttemptOutcome.parsed Json.null
                      else AttemptOutcome.parsed (Json.arr [])) 3 1 (Json.arr [])
    (by omega)
    (fun t ht => by
      have : t = 0 := by omega
      subst this
      rfl)
    rfl
    (fun hx => Json.noConfusion hx)
  rw [hres] at this
  exact Json.noConfusion this

/-- C8, amended: the retry controller never raises past its boundary (it is a
total function into a result value): it returns the parsed value of the first
attempt that does not raise — even when that value is `null`, which is
returned as the None result without consuming further attempts — and when
every attempt raises it returns None. -/
theorem c8_amended_absorbs_failures :
    (∀ (client : Nat → AttemptOutcome) (mr k : Nat) (j : Json),
      k < mr →
      (∀ t, t < k → client t = AttemptOutcome.raise) →
      client k = AttemptOutcome.parsed j →
      (generate_batch client mr).result = j)
    ∧ (∀ (client : Nat → AttemptOutcome) (mr : Nat),
      (∀ t, client t = AttemptOutcome.raise) →
      (generate_batch client mr).result = Json.null) := by
  constructor
  · intro client mr k j hk hf hs
    show (gbAux client mr mr 0).result = j
    rw [gbAux_first_success client j k mr 0 mr hk (by omega)
      (fun t ht => by rw [Nat.zero_add]; exact hf t ht) (by rwa [Nat.zero_add])]
  · intro client mr h
    show (gbAux client mr mr 0).result = Json.null
    rw [gbAux_all_raise client h mr 0 mr (by omega)]

/-- C8, witness for the amended theorem: a first attempt parsing to `null` is
returned as None; an always-raising client is converted to None. -/
theorem c8_amended_absorbs_failures_witness :
    (generate_batch (fun _ => AttemptOutcome.parsed Json.null) 3).result = Json.null
    ∧ (generate_batch (fun _ => AttemptOutcome.raise) 3).result = Json.null :=
  ⟨c8_amended_absorbs_failures.1 (fun _ => AttemptOutcome.parsed Json.null) 3 0
      Json.null (by omega) (fun t ht => absurd ht (Nat.not_lt_zero t)) rfl,
   c8_amended_absorbs_failures.2 (fun _ => AttemptOutcome.raise) 3 (fun _ => rfl)⟩

/-- C9: the rate-limiter delay is `60 / requestsPerMinuteLimit` time-units,
12 at the source's RPM limit of 5, computed once at run start; the driving
loop records exactly one sleep of that same fixed delay per iteration,
whatever the iteration's batch outcome (the trace is independent of
`batchOf`). -/
theorem c9_rate_limiter :
    delay_between_requests RPM_LIMIT = 60 / RPM_LIMIT
    ∧ delay_between_requests RPM_LIMIT = 12
    ∧ ∀ (batchOf : Nat → Json) (target bs : Nat) (rpm : ℚ),
        (main_run batchOf target bs rpm).2
          = List.replicate (target / bs) (delay_between_requests rpm) := by
  refine ⟨rfl, by norm_num [delay_between_requests, RPM_LIMIT], ?_⟩
  intro batchOf target bs rpm
  rw [main_run, runIters_trace]

/-- C10: after `k` completed iterations the two counters sum to exactly `k`,
and the corpus length and both counters are non-decreasing along the run. -/
theorem c10_loop_invariants :
    ∀ (batchOf : Nat → Json) (delay : ℚ) (k k₁ k₂ : Nat),
      ((stateAfter batchOf delay k).successful_batches
        + (stateAfter batchOf delay k).failed_batches = k)
      ∧ (k₁ ≤ k₂ →
          (stateAfter batchOf delay k₁).all_records.length
            ≤ (stateAfter batchOf delay k₂).all_records.length
          ∧ (stateAfter batchOf delay k₁).successful_batches
            ≤ (stateAfter batchOf delay k₂).successful_batches
          ∧ (stateAfter batchOf delay k₁).failed_batches
            ≤ (stateAfter batchOf delay k₂).failed_batches) := by
  intro batchOf delay k k₁ k₂
  constructor
  · have := runIters_counter_sum batchOf delay k initState 0
    simpa [stateAfter, initState] using this
  · intro hle
    obtain ⟨d, rfl⟩ : ∃ d, k₂ = k₁ + d := ⟨k₂ - k₁, by omega⟩
    have hadd := runIters_state_add batchOf delay k₁ d initState 0
    have hmono := runIters_mono batchOf delay d
      ((runIters batchOf delay initState 0 k₁).1) (0 + k₁)
    simp only [stateAfter]
    rw [hadd]
    exact hmono

/-- C10, witness: with an always-failing oracle, after 2 iterations the
counters sum to 2 and the state components grew monotonically from iteration
1 to iteration 2. -/
theorem c10_loop_invariants_witness :
    ((stateAfter (fun _ => Json.null) 12 2).successful_batches
      + (stateAfter (fun _ => Json.null) 12 2).failed_batches = 2)
    ∧ ((stateAfter (fun _ => Json.null) 12 1).all_records.length
        ≤ (stateAfter (fun _ => Json.null) 12 2).all_records.length
      ∧ (stateAfter (fun _ => Json.null) 12 1).successful_batches
        ≤ (stateAfter (fun _ => Json.null) 12 2).successful_batches
      ∧ (stateAfter (fun _ => Json.null) 12 1).failed_batches
        ≤ (stateAfter (fun _ => Json.null) 12 2).failed_batches) :=
  ⟨(c10_loop_invariants (fun _ => Json.null) 12 2 1 2).1,
   (c10_loop_invariants (fun _ => Json.null) 12 2 1 2).2 (by omega)⟩

end StrictBot
